import Mathlib

/-!
Verification of the Universal Credit Act 2025 Analyzer (`src/app.py`).

The file gives a shallow embedding of the program's pipeline: PDF text
extraction (`extract_text_from_pdf`), the three LLM analysis tasks
(`summarize_act`, `extract_legislative_sections`, `check_rules`), the
final-report assembler (`generate_final_report`), the Streamlit session
state with its document-input handlers, and the module-level export gate.

External effects are modelled by explicit outcome values passed to the
embedded functions: the PyPDF2 reader's behaviour on a given payload is a
`PdfOutcome` (either an exception or the list of per-page extracted
texts), and the combined OpenAI call plus `json.loads` step of a
structured task is a `JsonOutcome` (an exception from the call, a JSON
decode error, or the parsed JSON value).  Each `st.error` call is
recorded in a `notices` list, so "reports an error to the user" is
`notices ≠ []`.  Python truthiness of session-state fields, which drives
the `if` guards in the script body, is modelled by `truthyStr` and
`truthyJson`.
-/

namespace UCAnalyzer

/-- JSON values as produced by Python's `json.loads` (floats are not
needed by any code path modelled here; JSON numbers appearing in the
program are integers, e.g. the `confidence` field). -/
inductive Json where
  | null : Json
  | bool (b : Bool) : Json
  | num (n : Int) : Json
  | str (s : String) : Json
  | arr (elems : List Json) : Json
  | obj (fields : List (String × Json)) : Json

/-- Python truthiness of a JSON value (`if result:` semantics): `None`,
`False`, `0`, `""`, `[]` and `{}` are falsy, everything else truthy. -/
def pyTruthy : Json → Bool
  | .null => false
  | .bool b => b
  | .num n => n != 0
  | .str s => s != ""
  | .arr elems => !elems.isEmpty
  | .obj fields => !fields.isEmpty

/-- Dictionary lookup `j["k"]` guarded by `isinstance(j, dict) and "k" in j`:
`none` when `j` is not an object or lacks the key. -/
def jGet (j : Json) (key : String) : Option Json :=
  match j with
  | .obj fields => List.lookup key fields
  | _ => none

/-- Python slicing `s[:n]` on a `str` (a sequence of code points). -/
def pyTake (n : Nat) (s : String) : String := ⟨s.data.take n⟩

/-- ASCII whitespace as stripped by Python's `str.strip()`:
space, tab, newline, carriage return, vertical tab, form feed. -/
def isPyWhitespace (c : Char) : Bool :=
  c == ' ' || c == '\t' || c == '\n' || c == '\r' || c == '\x0b' || c == '\x0c'

/-- Drop trailing whitespace of a character list. -/
def rstripL (l : List Char) : List Char :=
  (l.reverse.dropWhile isPyWhitespace).reverse

/-- Strip leading and trailing whitespace of a character list. -/
def stripL (l : List Char) : List Char :=
  (rstripL l).dropWhile isPyWhitespace

/-- Python's `str.strip()` (for ASCII whitespace). -/
def pyStrip (s : String) : String := ⟨stripL s.data⟩

/-- The page-concatenation loop of `extract_text_from_pdf`
(src/app.py lines 30-32): `text = ""`, then for each page
`text += page.extract_text() + "\n"`. -/
def concatPages (texts : List String) : String :=
  texts.foldl (fun acc p => acc ++ p ++ "\n") ""

/-- Behaviour of the external PDF reader on the uploaded payload:
either `PdfReader`/`extract_text` raises (malformed payload), or it
yields the list of per-page extracted texts. -/
inductive PdfOutcome where
  | exn (msg : String) : PdfOutcome
  | pages (texts : List String) : PdfOutcome

/-- Result of `extract_text_from_pdf`: the returned string together with
the `st.error` notices emitted. -/
structure ExtractResult where
  text : String
  notices : List String

/-- `extract_text_from_pdf` (src/app.py lines 26-36): concatenate the
page texts each followed by a newline, strip the result; on any
exception report `st.error` and return the empty string. -/
def extract_text_from_pdf : PdfOutcome → ExtractResult
  | .exn m => ⟨"", ["Error extracting text from PDF: " ++ m]⟩
  | .pages ts => ⟨pyStrip (concatPages ts), []⟩

/-- A chat request issued to the provider (system framing plus user
instruction; src/app.py builds exactly these two messages per task). -/
structure ProviderCall where
  system : String
  user : String

/-- The run of one analysis function: the provider request it issued
(`none` would mean no request was made — the source never takes such a
branch), the Python return value, and the `st.error` notices. -/
structure AnalysisRun (α : Type) where
  call : Option ProviderCall
  value : α
  notices : List String

/-- Outcome of the free-text completion call in `summarize_act`: the
returned message content, or an exception. -/
inductive TextOutcome where
  | content (text : String) : TextOutcome
  | exn (msg : String) : TextOutcome

/-- Outcome of a structured completion call followed by `json.loads`:
the parsed JSON payload, a `json.JSONDecodeError` from parsing, or any
other exception raised by the call. -/
inductive JsonOutcome where
  | parsed (payload : Json) : JsonOutcome
  | parseError (msg : String) : JsonOutcome
  | exn (msg : String) : JsonOutcome

/-- The user prompt of `summarize_act` (src/app.py lines 42-52), with
the document text truncated to its first 15000 characters. -/
def summarize_prompt (text : String) : String :=
  "Summarize the following Act in 5-10 bullet points focusing on:\n- Purpose\n- Key definitions\n- Eligibility\n- Obligations\n- Enforcement elements\n\nAct text:\n"
    ++ pyTake 15000 text
    ++ "\n\nProvide a clear, structured summary with bullet points."

/-- The system message of `summarize_act` (src/app.py line 58). -/
def summarize_system : String :=
  "You are a legal document analyst. Provide clear, concise summaries of legislative documents."

/-- `summarize_act` (src/app.py lines 38-66): always issues the provider
request; returns the content verbatim on success, and on any exception
reports `st.error` and returns the empty string. -/
def summarize_act (text : String) (outcome : TextOutcome) : AnalysisRun String :=
  { call := some ⟨summarize_system, summarize_prompt text⟩
    value :=
      match outcome with
      | .content c => c
      | .exn _ => ""
    notices :=
      match outcome with
      | .content _ => []
      | .exn m => ["Error generating summary: " ++ m] }

/-- The user prompt of `extract_legislative_sections`
(src/app.py lines 109-122). -/
def sections_prompt (text : String) : String :=
  "Extract the following key sections from the Act and return a valid JSON object:\n\n- definitions: Extract all key definitions and terms\n- obligations: Extract all obligations mentioned in the Act\n- responsibilities: Extract responsibilities of the administering authority\n- eligibility: Extract eligibility criteria\n- payments: Extract payment calculations, entitlements, and payment structures\n- penalties: Extract penalties and enforcement mechanisms\n- record_keeping: Extract record-keeping and reporting requirements\n\nAct text:\n"
    ++ pyTake 15000 text
    ++ "\n\nReturn ONLY the JSON object matching the required schema, no additional text."

/-- The system message of `extract_legislative_sections`
(src/app.py line 128). -/
def sections_system : String :=
  "You are a legal document analyst. Extract structured information and return ONLY valid JSON matching the exact schema."

/-- `extract_legislative_sections` (src/app.py lines 68-149): always
issues the provider request; returns the parsed JSON verbatim on
success (no client-side shape check beyond `json.loads`); on a JSON
decode error or any other exception reports `st.error` and returns the
empty dict. -/
def extract_legislative_sections (text : String) (outcome : JsonOutcome) :
    AnalysisRun Json :=
  { call := some ⟨sections_system, sections_prompt text⟩
    value :=
      match outcome with
      | .parsed j => j
      | .parseError _ => .obj []
      | .exn _ => .obj []
    notices :=
      match outcome with
      | .parsed _ => []
      | .parseError m => ["Failed to parse JSON response: " ++ m]
      | .exn m => ["Error extracting sections: " ++ m] }

/-- The six fixed rule texts of `check_rules`
(src/app.py lines 155-162), order-significant. -/
def rules : List String :=
  [ "Act must define key terms"
  , "Act must specify eligibility criteria"
  , "Act must specify responsibilities of the administering authority"
  , "Act must include enforcement or penalties"
  , "Act must include payment calculation or entitlement structure"
  , "Act must include record-keeping or reporting requirements" ]

/-- The numbered rule listing embedded in the check prompt
(src/app.py line 202). -/
def rules_text : String :=
  String.intercalate "\n"
    (rules.enum.map (fun p => toString (p.1 + 1) ++ ". " ++ p.2))

/-- The user prompt of `check_rules` (src/app.py lines 203-214). -/
def check_prompt (text : String) : String :=
  "For each of the following rules, check if the Act satisfies it. For each rule, provide:\n1. status: \"pass\" or \"fail\"\n2. evidence: The specific section, clause, or text that supports your answer\n3. confidence: A number between 0-100 indicating your confidence level\n\nRules to check:\n"
    ++ rules_text
    ++ "\n\nAct text:\n"
    ++ pyTake 15000 text
    ++ "\n\nReturn a JSON object with a \"rules\" key containing an array with the exact structure specified in the schema."

/-- The system message of `check_rules` (src/app.py line 220). -/
def check_system : String :=
  "You are a legal compliance checker. Analyze documents and return structured rule checks in JSON format matching the exact schema."

/-- One placeholder rule-check dict as built by the fallback list
comprehensions of `check_rules` (src/app.py lines 241, 244, 247). -/
def mkPlaceholder (status evidence rule : String) : Json :=
  .obj [ ("rule", .str rule), ("status", .str status)
       , ("evidence", .str evidence), ("confidence", .num 0) ]

/-- The six placeholders returned on an unexpected response structure
(src/app.py line 241). -/
def unknownPlaceholders : List Json :=
  rules.map (mkPlaceholder "unknown" "Could not parse")

/-- The six placeholders returned on a parse or call failure
(src/app.py lines 244 and 247). -/
def errorPlaceholders (evidence : String) : List Json :=
  rules.map (mkPlaceholder "error" evidence)

/-- `check_rules` (src/app.py lines 151-247): always issues the provider
request; if the parsed result is a dict containing the key `"rules"`,
returns its value verbatim; otherwise reports
"Unexpected response structure" and returns the six `unknown`
placeholders; on a JSON decode error or any other exception reports
`st.error` and returns the six `error` placeholders. -/
def check_rules (text : String) (outcome : JsonOutcome) : AnalysisRun Json :=
  { call := some ⟨check_system, check_prompt text⟩
    value :=
      match outcome with
      | .parsed (.obj fields) =>
        match List.lookup "rules" fields with
        | some v => v
        | none => .arr unknownPlaceholders
      | .parsed _ => .arr unknownPlaceholders
      | .parseError m => .arr (errorPlaceholders ("JSON parse error: " ++ m))
      | .exn m => .arr (errorPlaceholders m)
    notices :=
      match outcome with
      | .parsed (.obj fields) =>
        match List.lookup "rules" fields with
        | some _ => []
        | none => ["Unexpected response structure"]
      | .parsed _ => ["Unexpected response structure"]
      | .parseError m => ["Failed to parse JSON response: " ++ m]
      | .exn m => ["Error checking rules: " ++ m] }

/-- `generate_final_report` (src/app.py lines 249-255): the final JSON
report with its three top-level keys. -/
def generate_final_report (summary : String) (sections rule_checks : Json) : Json :=
  .obj [ ("summary", .str summary), ("sections", sections)
       , ("rule_checks", rule_checks) ]

/-- The top-level keys of a JSON object, in order. -/
def Json.topKeys : Json → List String
  | .obj fields => fields.map Prod.fst
  | _ => []

/-- The Streamlit session state (src/app.py lines 17-24): the four
fields are initialised to `None` and hold the document text and the
three derived artifacts. -/
structure SessionState where
  extracted_text : Option String := none
  summary : Option String := none
  sections : Option Json := none
  rule_checks : Option Json := none

/-- The session state right after initialisation: all fields `None`. -/
def initialState : SessionState := {}

/-- Python truthiness of an optional string session field
(`None` and `""` are falsy). -/
def truthyStr : Option String → Bool
  | none => false
  | some s => s != ""

/-- Python truthiness of an optional JSON session field. -/
def truthyJson : Option Json → Bool
  | none => false
  | some j => pyTruthy j

/-- The PDF branch of the sidebar document input (src/app.py line 292):
pressing "Extract Text from PDF" stores the extraction result in
`extracted_text`, unconditionally, and touches no other field. -/
def load_pdf_text (st : SessionState) (result : String) : SessionState :=
  { st with extracted_text := some result }

/-- The paste branch of the sidebar document input
(src/app.py lines 301-304): pressing "Use Pasted Text" stores the
pasted text when it is truthy, and touches no other field. -/
def load_pasted_text (st : SessionState) (input : String) : SessionState :=
  if input != "" then { st with extracted_text := some input } else st

/-- The gate in front of the analysis buttons (src/app.py lines
307-313): the script stops (`st.stop`) unless the API key and the
extracted text are both truthy, so no analysis task is reachable
otherwise. -/
def analysis_ui_reachable (api_key : String) (st : SessionState) : Bool :=
  (api_key != "") && truthyStr st.extracted_text

/-- The module-level export gate (src/app.py line 410): the final
report is assembled and offered for download exactly when all three
artifact fields are truthy. -/
def export_available (st : SessionState) : Bool :=
  truthyStr st.summary && truthyJson st.sections && truthyJson st.rule_checks

/-- Page texts joined by exactly one newline. This definition follows
the spec's words ("pages joined by a single newline"), to be compared
with what `extract_text_from_pdf` actually computes. -/
def joinNL : List String → String
  | [] => ""
  | [t] => t
  | t :: ts => t ++ "\n" ++ joinNL ts

/-- Validation predicate stated from the spec's words (claim C3): a
rule-check element has all four required fields, `status` is one of
`pass`/`fail`, and `confidence` is an integer in [0, 100]. The source
contains no such client-side check; this definition only states the
property the claim attributes to `check_rules`. -/
def specValidRuleElem (j : Json) : Bool :=
  match j with
  | .obj fields =>
    (match List.lookup "rule" fields with
      | some (.str _) => true
      | _ => false) &&
    (match List.lookup "status" fields with
      | some (.str s) => s == "pass" || s == "fail"
      | _ => false) &&
    (match List.lookup "evidence" fields with
      | some (.str _) => true
      | _ => false) &&
    (match List.lookup "confidence" fields with
      | some (.num n) => decide (0 ≤ n ∧ n ≤ 100)
      | _ => false)
  | _ => false

/-- A session state in which one document has been fully analysed:
every field is populated and truthy. -/
def staleState : SessionState :=
  { extracted_text := some "old act text"
    summary := some "old summary"
    sections := some (.obj [("definitions", .str "old definitions")])
    rule_checks := some (.arr (errorPlaceholders "upstream failure")) }

/-- A fully populated session state whose rule checks are the sentinel
fallback produced by a failed `check_rules` call. -/
def fullState : SessionState :=
  { extracted_text := some "act text"
    summary := some "Summary bullets"
    sections := some (.obj [("definitions", .str "key terms")])
    rule_checks := some (.arr (errorPlaceholders "provider down")) }

/-- A parseable provider payload whose rules array is empty: it
satisfies the declared response schema (which puts no bound on the
array length) yet carries zero rule checks. -/
def emptyRulesPayload : Json := .obj [("rules", .arr [])]

/-- A rule-check element missing three of the four required fields. -/
def invalidElem : Json := .obj [("rule", .str "Act must define key terms")]

/-- A parseable payload whose rules array holds one invalid element. -/
def invalidRulesPayload : Json := .obj [("rules", .arr [invalidElem])]

/-! ## String and list facts used by the extraction proofs -/

lemma data_append (s t : String) : (s ++ t).data = s.data ++ t.data := by
  cases s; cases t; rfl

lemma data_empty : ("" : String).data = [] := rfl

lemma str_ext {s t : String} (h : s.data = t.data) : s = t := by
  cases s; cases t; cases h; rfl

lemma str_append_assoc (a b c : String) : a ++ b ++ c = a ++ (b ++ c) := by
  apply str_ext; simp [data_append]

lemma str_append_empty (a : String) : a ++ "" = a := by
  apply str_ext; rw [data_append, data_empty, List.append_nil]

lemma str_empty_append (a : String) : "" ++ a = a := by
  apply str_ext; rw [data_append, data_empty, List.nil_append]

lemma dropWhile_head_not (l : List Char) (c : Char)
    (h : (l.dropWhile isPyWhitespace).head? = some c) :
    isPyWhitespace c = false := by
  induction l with
  | nil => simp [List.dropWhile] at h
  | cons a t ih =>
    rw [List.dropWhile_cons] at h
    by_cases hp : isPyWhitespace a
    · rw [if_pos hp] at h; exact ih h
    · rw [if_neg hp] at h
      injection h with h'
      subst h'
      cases hb : isPyWhitespace a with
      | true => exact absurd hb hp
      | false => rfl

lemma stripL_head_not (l : List Char) (c : Char)
    (h : (stripL l).head? = some c) : isPyWhitespace c = false :=
  dropWhile_head_not _ _ h

lemma rstripL_getLast_not (l : List Char) (c : Char)
    (h : (rstripL l).getLast? = some c) : isPyWhitespace c = false := by
  unfold rstripL at h
  have e := List.head?_reverse (l.reverse.dropWhile isPyWhitespace).reverse
  rw [List.reverse_reverse] at e
  exact dropWhile_head_not _ _ (e.trans h)

lemma stripL_getLast_not (l : List Char) (c : Char)
    (h : (stripL l).getLast? = some c) : isPyWhitespace c = false := by
  unfold stripL at h
  rcases e : (rstripL l).dropWhile isPyWhitespace with _ | ⟨a, t⟩
  · rw [e] at h; simp at h
  · rw [e] at h
    have hne : (rstripL l).dropWhile isPyWhitespace ≠ [] := by rw [e]; simp
    have hlast : (rstripL l).getLast? = some c := by
      rw [← List.takeWhile_append_dropWhile isPyWhitespace (rstripL l),
        List.getLast?_append_of_ne_nil _ hne, e]
      exact h
    exact rstripL_getLast_not l c hlast

lemma stripL_eq_nil_iff (l : List Char) :
    stripL l = [] ↔ ∀ c ∈ l, isPyWhitespace c = true := by
  constructor
  · intro h c hc
    unfold stripL at h
    rw [List.dropWhile_eq_nil_iff] at h
    have hc' : c ∈ l.reverse := List.mem_reverse.mpr hc
    rw [← List.takeWhile_append_dropWhile isPyWhitespace l.reverse] at hc'
    rcases List.mem_append.mp hc' with h1 | h2
    · exact List.mem_takeWhile_imp h1
    · exact h c (by rw [rstripL]; exact List.mem_reverse.mpr h2)
  · intro hall
    unfold stripL rstripL
    have h1 : l.reverse.dropWhile isPyWhitespace = [] := by
      rw [List.dropWhile_eq_nil_iff]
      intro x hx
      exact hall x (List.mem_reverse.mp hx)
    simp [h1]

lemma rstripL_append_newline (l : List Char) :
    rstripL (l ++ ['\n']) = rstripL l := by
  unfold rstripL
  rw [show (l ++ ['\n']).reverse = '\n' :: l.reverse by simp]
  simp [List.dropWhile_cons, show isPyWhitespace '\n' = true from rfl]

lemma stripL_append_newline (l : List Char) :
    stripL (l ++ ['\n']) = stripL l := by
  unfold stripL
  rw [rstripL_append_newline]

lemma foldl_append_acc (ts : List String) (a : String) :
    ts.foldl (fun acc p => acc ++ p ++ "\n") a
      = a ++ ts.foldl (fun acc p => acc ++ p ++ "\n") "" := by
  induction ts generalizing a with
  | nil => exact (str_append_empty a).symm
  | cons t ts ih =>
    simp only [List.foldl]
    rw [ih (a ++ t ++ "\n"), ih ("" ++ t ++ "\n")]
    apply str_ext
    simp [data_append, data_empty]

lemma concatPages_cons (t : String) (ts : List String) :
    concatPages (t :: ts) = t ++ "\n" ++ concatPages ts := by
  unfold concatPages
  simp only [List.foldl]
  rw [foldl_append_acc ts ("" ++ t ++ "\n"), str_empty_append]

lemma concatPages_eq_joinNL (ts : List String) (h : ts ≠ []) :
    concatPages ts = joinNL ts ++ "\n" := by
  induction ts with
  | nil => exact absurd rfl h
  | cons t ts ih =>
    cases ts with
    | nil =>
      rw [concatPages_cons, show concatPages [] = "" from rfl, str_append_empty]
      rfl
    | cons t' ts' =>
      rw [concatPages_cons, ih (by simp),
        show joinNL (t :: t' :: ts') = t ++ "\n" ++ joinNL (t' :: ts') from rfl,
        str_append_assoc (t ++ "\n") (joinNL (t' :: ts')) "\n"]

lemma mem_data_joinNL : ∀ ts : List String, ∀ p ∈ ts, ∀ c ∈ p.data,
    c ∈ (joinNL ts).data := by
  intro ts
  induction ts with
  | nil => intro p hp; simp at hp
  | cons t rest ih =>
    intro p hp c hc
    cases rest with
    | nil =>
      have hpt : p = t := by simpa using hp
      subst hpt
      exact hc
    | cons t' ts' =>
      rw [show joinNL (t :: t' :: ts') = t ++ "\n" ++ joinNL (t' :: ts') from rfl,
        data_append, data_append]
      rcases List.mem_cons.mp hp with h | h
      · subst h
        exact List.mem_append.mpr (Or.inl (List.mem_append.mpr (Or.inl hc)))
      · exact List.mem_append.mpr (Or.inr (ih p h c hc))

lemma exists_nonws_of_strip_ne (p : String) (h : pyStrip p ≠ "") :
    ∃ c ∈ p.data, isPyWhitespace c = false := by
  by_contra hcon
  push_neg at hcon
  apply h
  unfold pyStrip
  have hnil : stripL p.data = [] := by
    rw [stripL_eq_nil_iff]
    intro c hc
    have hne := hcon c hc
    cases hb : isPyWhitespace c with
    | true => rfl
    | false => exact absurd hb hne
  rw [hnil]

lemma strip_ne_of_exists_nonws (s : String)
    (h : ∃ c ∈ s.data, isPyWhitespace c = false) : pyStrip s ≠ "" := by
  rcases h with ⟨c, hc, hws⟩
  intro he
  have hnil : stripL s.data = [] := congrArg String.data he
  have := (stripL_eq_nil_iff _).mp hnil c hc
  rw [hws] at this
  exact Bool.false_ne_true this

/-! ## Claims -/

/-- C1 (counterexample): replacing the Document Text does not clear the
other Session State fields. Starting from a fully analysed session,
loading a new pasted document leaves the old Summary, Section Bundle
and Rule Checks in place — the export gate still fires, so a Final
Report can be assembled from artifacts of the previous document. -/
theorem paste_new_text_leaves_old_summary :
    (load_pasted_text staleState "new act text").summary = some "old summary" ∧
    (load_pasted_text staleState "new act text").sections = staleState.sections ∧
    (load_pasted_text staleState "new act text").rule_checks
      = staleState.rule_checks ∧
    (load_pasted_text staleState "new act text").extracted_text
      = some "new act text" ∧
    export_available (load_pasted_text staleState "new act text") = true :=
  ⟨rfl, rfl, rfl, rfl, rfl⟩

/-- C1 (amended): replacing the Document Text — by PDF extraction or by
pasting — overwrites only `extracted_text`; Summary, Section Bundle and
Rule Checks keep their previous values and the export gate's verdict is
unchanged, so nothing prevents a Final Report built from artifacts of a
previous Document Text version. -/
theorem replace_document_preserves_artifacts (st : SessionState)
    (extracted input : String) (h : input ≠ "") :
    (load_pdf_text st extracted).summary = st.summary ∧
    (load_pdf_text st extracted).sections = st.sections ∧
    (load_pdf_text st extracted).rule_checks = st.rule_checks ∧
    (load_pasted_text st input).summary = st.summary ∧
    (load_pasted_text st input).sections = st.sections ∧
    (load_pasted_text st input).rule_checks = st.rule_checks ∧
    export_available (load_pasted_text st input) = export_available st := by
  have e : load_pasted_text st input = { st with extracted_text := some input } := by
    unfold load_pasted_text
    rw [if_pos (bne_iff_ne.mpr h)]
  refine ⟨rfl, rfl, rfl, ?_, ?_, ?_, ?_⟩
  · rw [e]
  · rw [e]
  · rw [e]
  · rw [e]; rfl

/-- C1 (witness): the amended statement at a concrete fully analysed
session and concrete replacement texts. -/
theorem replace_document_preserves_artifacts_witness :
    (load_pdf_text staleState "other text").summary = staleState.summary ∧
    (load_pdf_text staleState "other text").sections = staleState.sections ∧
    (load_pdf_text staleState "other text").rule_checks = staleState.rule_checks ∧
    (load_pasted_text staleState "new act text").summary = staleState.summary ∧
    (load_pasted_text staleState "new act text").sections = staleState.sections ∧
    (load_pasted_text staleState "new act text").rule_checks
      = staleState.rule_checks ∧
    export_available (load_pasted_text staleState "new act text")
      = export_available staleState :=
  replace_document_preserves_artifacts staleState "other text" "new act text"
    (by decide)

/-- C2 (counterexample): `check_rules` does not always return six
records. On the schema-conforming success payload whose rules array is
empty, it returns that empty array verbatim (with no error notice), so
no six-element sequence exists. -/
theorem check_rules_success_not_six :
    (check_rules "act" (.parsed emptyRulesPayload)).value = Json.arr [] ∧
    (check_rules "act" (.parsed emptyRulesPayload)).notices = [] ∧
    ¬ ∃ checks : List Json,
        (check_rules "act" (.parsed emptyRulesPayload)).value = Json.arr checks ∧
        checks.length = 6 := by
  refine ⟨rfl, rfl, ?_⟩
  rintro ⟨checks, hval, hlen⟩
  have h0 : Json.arr [] = Json.arr checks := hval
  injection h0 with h0
  rw [← h0] at hlen
  exact absurd hlen (by decide)

/-- C2 (amended): the six-records-in-fixed-order guarantee holds in
every fallback branch (provider exception, JSON parse failure,
unexpected structure), but on the success branch `check_rules` returns
the value found under the "rules" key verbatim, with no client-side
check of its length, order, or even that it is an array. -/
theorem check_rules_six_only_in_fallback (text m : String) (j : Json)
    (hj : jGet j "rules" = none)
    (fields : List (String × Json)) (v : Json)
    (hv : List.lookup "rules" fields = some v) :
    (check_rules text (.exn m)).value = .arr (errorPlaceholders m) ∧
    (check_rules text (.parseError m)).value
      = .arr (errorPlaceholders ("JSON parse error: " ++ m)) ∧
    (check_rules text (.parsed j)).value = .arr unknownPlaceholders ∧
    (errorPlaceholders m).length = 6 ∧
    unknownPlaceholders.length = 6 ∧
    (errorPlaceholders m).map (fun c => jGet c "rule")
      = rules.map (fun r => some (.str r)) ∧
    unknownPlaceholders.map (fun c => jGet c "rule")
      = rules.map (fun r => some (.str r)) ∧
    (check_rules text (.parsed (.obj fields))).value = v := by
  refine ⟨rfl, rfl, ?_, rfl, rfl, rfl, rfl, ?_⟩
  · cases j with
    | obj fs => simp [check_rules, show List.lookup "rules" fs = none from hj]
    | null => rfl
    | bool b => rfl
    | num n => rfl
    | str s => rfl
    | arr es => rfl
  · simp [check_rules, hv]

/-- C2 (witness): the amended statement at concrete inputs — a parsed
array payload for the structurally-wrong branch and a dict whose
"rules" key holds a non-array value for the success branch. -/
theorem check_rules_six_only_in_fallback_witness :
    (check_rules "act" (.exn "boom")).value = .arr (errorPlaceholders "boom") ∧
    (check_rules "act" (.parseError "boom")).value
      = .arr (errorPlaceholders ("JSON parse error: " ++ "boom")) ∧
    (check_rules "act" (.parsed (.arr []))).value = .arr unknownPlaceholders ∧
    (errorPlaceholders "boom").length = 6 ∧
    unknownPlaceholders.length = 6 ∧
    (errorPlaceholders "boom").map (fun c => jGet c "rule")
      = rules.map (fun r => some (.str r)) ∧
    unknownPlaceholders.map (fun c => jGet c "rule")
      = rules.map (fun r => some (.str r)) ∧
    (check_rules "act" (.parsed (.obj [("rules", .str "bogus")]))).value
      = .str "bogus" :=
  check_rules_six_only_in_fallback "act" "boom" (.arr []) rfl
    [("rules", .str "bogus")] (.str "bogus") rfl

/-- C3 (counterexample): `check_rules` performs no client-side
validation of the rule elements. A parsed payload whose single element
lacks `status`, `evidence` and `confidence` is returned verbatim as a
successful result (no error notice), although it violates were the
spec's validation conditions enforced. -/
theorem check_rules_returns_invalid_element :
    (check_rules "act" (.parsed invalidRulesPayload)).value
      = Json.arr [invalidElem] ∧
    (check_rules "act" (.parsed invalidRulesPayload)).notices = [] ∧
    specValidRuleElem invalidElem = false :=
  ⟨rfl, rfl, rfl⟩

/-- C3 (amended): the only client-side structural check in
`check_rules` is that the parsed payload is a dict containing the key
"rules"; whatever value sits under that key is returned as a successful
result, with per-element validation left entirely to the provider's
schema enforcement. -/
theorem check_rules_no_element_validation (text : String)
    (fields : List (String × Json)) (v : Json)
    (hv : List.lookup "rules" fields = some v) :
    (check_rules text (.parsed (.obj fields))).value = v ∧
    (check_rules text (.parsed (.obj fields))).notices = [] := by
  constructor <;> simp [check_rules, hv]

/-- C3 (witness): the amended statement at the invalid-element payload. -/
theorem check_rules_no_element_validation_witness :
    (check_rules "act" (.parsed (.obj [("rules", .arr [invalidElem])]))).value
      = .arr [invalidElem] ∧
    (check_rules "act" (.parsed (.obj [("rules", .arr [invalidElem])]))).notices
      = [] :=
  check_rules_no_element_validation "act" [("rules", .arr [invalidElem])]
    (.arr [invalidElem]) rfl

/-- C4: the export gate returns Unavailable whenever any of Summary,
Section Bundle or Rule Checks is absent (not populated and truthy), and
whenever it fires, the assembled report has exactly the three top-level
keys `summary`, `sections`, `rule_checks`. -/
theorem export_gate_and_report_keys (st : SessionState) :
    ((truthyStr st.summary = false ∨ truthyJson st.sections = false ∨
        truthyJson st.rule_checks = false) → export_available st = false) ∧
    (export_available st = true →
      ∃ s sec rc, st.summary = some s ∧ st.sections = some sec ∧
        st.rule_checks = some rc ∧
        (generate_final_report s sec rc).topKeys
          = ["summary", "sections", "rule_checks"]) := by
  constructor
  · rintro (h | h | h) <;> simp [export_available, h]
  · intro h
    simp only [export_available, Bool.and_eq_true] at h
    obtain ⟨⟨h1, h2⟩, h3⟩ := h
    cases hs : st.summary with
    | none => rw [hs] at h1; exact absurd h1 (by simp [truthyStr])
    | some s =>
      cases hsec : st.sections with
      | none => rw [hsec] at h2; exact absurd h2 (by simp [truthyJson])
      | some sec =>
        cases hrc : st.rule_checks with
        | none => rw [hrc] at h3; exact absurd h3 (by simp [truthyJson])
        | some rc => exact ⟨s, sec, rc, rfl, rfl, rfl, rfl⟩

/-- C4 (witness): the gate blocks when the summary is absent, and fires
on a fully populated state, producing the three-key report. -/
theorem export_gate_and_report_keys_witness :
    export_available { fullState with summary := none } = false ∧
    (∃ s sec rc, fullState.summary = some s ∧ fullState.sections = some sec ∧
      fullState.rule_checks = some rc ∧
      (generate_final_report s sec rc).topKeys
        = ["summary", "sections", "rule_checks"]) :=
  ⟨(export_gate_and_report_keys _).1 (Or.inl rfl),
   (export_gate_and_report_keys fullState).2 rfl⟩

/-- C5 (counterexample): none of the three analysis functions fails
fast on empty Document Text. Each issues its provider request even for
`text = ""` — `summarize_act` with no error notice on the success path —
and the prompt it sends is the instruction template with an empty
document slot (not an empty body, and not an `ExtractionError`). -/
theorem analysis_tasks_call_provider_on_empty_text :
    (summarize_act "" (.content "ok")).call
      = some ⟨summarize_system, summarize_prompt ""⟩ ∧
    (summarize_act "" (.content "ok")).notices = [] ∧
    (extract_legislative_sections "" (.parsed (.obj []))).call.isSome = true ∧
    (check_rules "" (.exn "network down")).call.isSome = true ∧
    summarize_prompt "" ≠ "" :=
  ⟨rfl, rfl, rfl, rfl, by decide⟩

/-- C5 (amended): the empty-document guard lives only in the UI layer —
the script stops before the analysis buttons whenever `extracted_text`
is falsy — while the task functions themselves contain no guard and
issue a provider request for any text, the empty string included. -/
theorem empty_text_guard_only_in_ui (api_key text : String) (st : SessionState)
    (h : st.extracted_text = none ∨ st.extracted_text = some "")
    (o : TextOutcome) (p q : JsonOutcome) :
    analysis_ui_reachable api_key st = false ∧
    (summarize_act text o).call.isSome = true ∧
    (extract_legislative_sections text p).call.isSome = true ∧
    (check_rules text q).call.isSome = true := by
  refine ⟨?_, rfl, rfl, rfl⟩
  rcases h with h | h <;> simp [analysis_ui_reachable, truthyStr, h]

/-- C5 (witness): the amended statement at the initial session state
and empty text. -/
theorem empty_text_guard_only_in_ui_witness :
    analysis_ui_reachable "key" initialState = false ∧
    (summarize_act "" (.content "ok")).call.isSome = true ∧
    (extract_legislative_sections "" (.parsed .null)).call.isSome = true ∧
    (check_rules "" (.parsed .null)).call.isSome = true :=
  empty_text_guard_only_in_ui "key" "" initialState (Or.inl rfl)
    (.content "ok") (.parsed .null) (.parsed .null)

/-- C6 (counterexample): a well-formed payload with one page bearing no
text makes `extract_text_from_pdf` return the empty string with no
error notice at all — no `ExtractionError`, nothing distinct from "no
file supplied"; and the malformed-payload branch returns the very same
empty string. -/
theorem empty_pdf_text_no_error_signal :
    (extract_text_from_pdf (.pages [""])).text = "" ∧
    (extract_text_from_pdf (.pages [""])).notices = [] ∧
    (extract_text_from_pdf (.exn "EOF marker not found")).text = "" :=
  ⟨rfl, rfl, rfl⟩

/-- C6 (amended): on a malformed payload the function reports a notice
and returns the empty string (it raises nothing); on a well-formed
payload with no extractable text it returns the empty string silently;
in both cases the result is falsy, so the UI treats it exactly like no
document at all. -/
theorem extract_failures_collapse_to_empty (m api_key : String) :
    extract_text_from_pdf (.exn m)
      = ⟨"", ["Error extracting text from PDF: " ++ m]⟩ ∧
    extract_text_from_pdf (.pages [""]) = ⟨"", []⟩ ∧
    truthyStr (some "") = truthyStr none ∧
    analysis_ui_reachable api_key { initialState with extracted_text := some "" }
      = analysis_ui_reachable api_key initialState :=
  ⟨rfl, rfl, rfl, rfl⟩

/-- C7 (counterexample): the extracted text is not the pages' texts
joined by exactly one newline: for pages "a" and "b " the result is
"a\nb" — the trailing space of the final page is stripped away — while
the texts joined by one newline read "a\nb ". -/
theorem pages_not_joined_exactly :
    (extract_text_from_pdf (.pages ["a", "b "])).text = "a\nb" ∧
    joinNL ["a", "b "] = "a\nb " ∧
    ("a\nb" : String) ≠ "a\nb " :=
  ⟨by decide, by decide, by decide⟩

/-- C7 (amended): for every payload with at least one page bearing
non-whitespace text, `extract` returns the pages' texts joined by
single newlines with leading and trailing whitespace stripped from the
whole; the result is non-empty and begins and ends with a
non-whitespace character. -/
theorem extract_joins_then_strips (ts : List String)
    (h : ∃ p ∈ ts, pyStrip p ≠ "") :
    (extract_text_from_pdf (.pages ts)).text = pyStrip (joinNL ts) ∧
    (extract_text_from_pdf (.pages ts)).text ≠ "" ∧
    (∀ c, (extract_text_from_pdf (.pages ts)).text.data.head? = some c →
      isPyWhitespace c = false) ∧
    (∀ c, (extract_text_from_pdf (.pages ts)).text.data.getLast? = some c →
      isPyWhitespace c = false) := by
  obtain ⟨p, hp, hpne⟩ := h
  have hts : ts ≠ [] := by rintro rfl; simp at hp
  have htext : (extract_text_from_pdf (.pages ts)).text
      = pyStrip (concatPages ts) := rfl
  have heq : pyStrip (concatPages ts) = pyStrip (joinNL ts) := by
    rw [concatPages_eq_joinNL ts hts]
    unfold pyStrip
    congr 1
    rw [data_append, show ("\n" : String).data = ['\n'] from rfl,
      stripL_append_newline]
  refine ⟨htext.trans heq, ?_, ?_, ?_⟩
  · rw [htext, heq]
    apply strip_ne_of_exists_nonws
    obtain ⟨c, hc, hcw⟩ := exists_nonws_of_strip_ne p hpne
    exact ⟨c, mem_data_joinNL ts p hp c hc, hcw⟩
  · intro c hc
    rw [htext] at hc
    exact stripL_head_not _ _ hc
  · intro c hc
    rw [htext] at hc
    exact stripL_getLast_not _ _ hc

/-- C7 (witness): the amended statement at the two-page payload of the
counterexample. -/
theorem extract_joins_then_strips_witness :
    (extract_text_from_pdf (.pages ["a", "b "])).text
      = pyStrip (joinNL ["a", "b "]) ∧
    (extract_text_from_pdf (.pages ["a", "b "])).text ≠ "" ∧
    (∀ c, (extract_text_from_pdf (.pages ["a", "b "])).text.data.head? = some c →
      isPyWhitespace c = false) ∧
    (∀ c, (extract_text_from_pdf (.pages ["a", "b "])).text.data.getLast?
        = some c → isPyWhitespace c = false) :=
  extract_joins_then_strips ["a", "b "] ⟨"a", by decide, by decide⟩

/-- C8 (counterexample): in the unexpected-structure fallback the
placeholders do not carry the underlying error message as evidence: the
reported message is "Unexpected response structure" while every
placeholder's evidence is the unrelated fixed text "Could not parse". -/
theorem unknown_evidence_not_error_message :
    (check_rules "act" (.parsed (.arr []))).notices
      = ["Unexpected response structure"] ∧
    (check_rules "act" (.parsed (.arr []))).value = .arr unknownPlaceholders ∧
    unknownPlaceholders.map (fun c => jGet c "evidence")
      = List.replicate 6 (some (.str "Could not parse")) ∧
    ("Could not parse" : String) ≠ "Unexpected response structure" :=
  ⟨rfl, rfl, rfl, by decide⟩

/-- C8 (amended): every fallback of `check_rules` yields the six
placeholders keyed one per fixed rule with confidence 0; the two error
fallbacks (parse failure, provider exception) carry the underlying
error message as evidence with status "error", while the
unexpected-structure fallback carries the fixed text "Could not parse"
with status "unknown" (the error message is only shown as a notice). -/
theorem check_rules_fallback_placeholders (text m : String) (j : Json)
    (hj : jGet j "rules" = none) :
    (check_rules text (.parsed j)).value = .arr unknownPlaceholders ∧
    unknownPlaceholders.map (fun c => jGet c "status")
      = List.replicate 6 (some (.str "unknown")) ∧
    unknownPlaceholders.map (fun c => jGet c "evidence")
      = List.replicate 6 (some (.str "Could not parse")) ∧
    unknownPlaceholders.map (fun c => jGet c "confidence")
      = List.replicate 6 (some (.num 0)) ∧
    (check_rules text (.parseError m)).value
      = .arr (errorPlaceholders ("JSON parse error: " ++ m)) ∧
    (check_rules text (.exn m)).value = .arr (errorPlaceholders m) ∧
    (errorPlaceholders m).map (fun c => jGet c "status")
      = List.replicate 6 (some (.str "error")) ∧
    (errorPlaceholders m).map (fun c => jGet c "evidence")
      = List.replicate 6 (some (.str m)) ∧
    (errorPlaceholders m).map (fun c => jGet c "confidence")
      = List.replicate 6 (some (.num 0)) ∧
    unknownPlaceholders.map (fun c => jGet c "rule")
      = rules.map (fun r => some (.str r)) ∧
    (errorPlaceholders m).map (fun c => jGet c "rule")
      = rules.map (fun r => some (.str r)) := by
  refine ⟨?_, rfl, rfl, rfl, rfl, rfl, rfl, rfl, rfl, rfl, rfl⟩
  cases j with
  | obj fs => simp [check_rules, show List.lookup "rules" fs = none from hj]
  | null => rfl
  | bool b => rfl
  | num n => rfl
  | str s => rfl
  | arr es => rfl

/-- C8 (witness): the amended statement's unexpected-structure branch
at a parsed array payload. -/
theorem check_rules_fallback_placeholders_witness :
    (check_rules "act" (.parsed (.arr []))).value = .arr unknownPlaceholders :=
  (check_rules_fallback_placeholders "act" "boom" (.arr []) rfl).1

/-- C9: every provider or validation failure is absorbed at the point
of the call (the embedded functions are total over all failure
outcomes, so nothing propagates) and converted into a user-visible
notice, with `summarize_act` falling back to the empty string,
`extract_legislative_sections` to the empty bundle, and `check_rules`
to the six sentinel placeholders. -/
theorem analysis_failures_notice_and_fallback (text m : String) :
    (summarize_act text (.exn m)).value = "" ∧
    (summarize_act text (.exn m)).notices = ["Error generating summary: " ++ m] ∧
    (extract_legislative_sections text (.exn m)).value = .obj [] ∧
    (extract_legislative_sections text (.exn m)).notices
      = ["Error extracting sections: " ++ m] ∧
    (extract_legislative_sections text (.parseError m)).value = .obj [] ∧
    (extract_legislative_sections text (.parseError m)).notices
      = ["Failed to parse JSON response: " ++ m] ∧
    (check_rules text (.exn m)).value = .arr (errorPlaceholders m) ∧
    (check_rules text (.exn m)).notices = ["Error checking rules: " ++ m] ∧
    (check_rules text (.parseError m)).notices
      = ["Failed to parse JSON response: " ++ m] :=
  ⟨rfl, rfl, rfl, rfl, rfl, rfl, rfl, rfl, rfl⟩

/-- C10: the export gate is pure truthiness. The failure fallbacks of
`summarize_act` (empty string) and `extract_legislative_sections`
(empty dict) are falsy and block export, but the failure fallback of
`check_rules` is a truthy six-element list, so a fully populated state
whose rule checks are all sentinel "error" records with confidence 0
passes the gate and its report carries them under "rule_checks". -/
theorem truthy_export_gate (st : SessionState) (text m : String) :
    (st.summary = some (summarize_act text (.exn m)).value →
      export_available st = false) ∧
    (st.sections = some (extract_legislative_sections text (.exn m)).value →
      export_available st = false) ∧
    pyTruthy (check_rules text (.exn m)).value = true ∧
    export_available fullState = true ∧
    fullState.rule_checks
      = some (check_rules "old act" (.exn "provider down")).value ∧
    (errorPlaceholders "provider down").map (fun c => jGet c "status")
      = List.replicate 6 (some (.str "error")) ∧
    (errorPlaceholders "provider down").map (fun c => jGet c "confidence")
      = List.replicate 6 (some (.num 0)) ∧
    jGet (generate_final_report "Summary bullets"
        (.obj [("definitions", .str "key terms")])
        (.arr (errorPlaceholders "provider down"))) "rule_checks"
      = some (.arr (errorPlaceholders "provider down")) := by
  refine ⟨?_, ?_, rfl, rfl, rfl, rfl, rfl, rfl⟩
  · intro h
    simp [export_available, h, truthyStr, summarize_act]
  · intro h
    simp [export_available, h, truthyJson, pyTruthy,
      extract_legislative_sections]

/-- C10 (witness): both falsy fallbacks block the gate on concrete
states. -/
theorem truthy_export_gate_witness :
    export_available { staleState with summary := some "" } = false ∧
    export_available { staleState with sections := some (.obj []) } = false :=
  ⟨(truthy_export_gate { staleState with summary := some "" } "act" "boom").1 rfl,
   (truthy_export_gate { staleState with sections := some (.obj []) } "act"
      "boom").2.1 rfl⟩

end UCAnalyzer
